import Mathlib

/-!
Verification of the event_manager user-account service: the authentication
and account-lockout core, the HTTP status mapping, the global exception
handler of `src/app/main.py`, and the `UserUpdate` payload validator of
`src/app/schemas/user_schemas.py`.

The repository under `src/` contains the FastAPI app entry point, the
pydantic schemas and the test suite; the Authenticator, Lockout Policy,
Account Repository and Token Issuer bodies are not present under `src/`
(only their tests and callers are), so those components are modelled from
the spec, faithful to its transition table and contracts.
-/

namespace EventManager

/-- Embedded from `src/app/schemas/user_schemas.py`: `UserRole`. -/
inductive UserRole
  | ANONYMOUS
  | AUTHENTICATED
  | MANAGER
  | ADMIN
deriving Repr, DecidableEq

/-- Modelled from the spec (section 3, Data Model): the missing ORM user
model is not under `src/`; fields follow the spec and the
`_build_user_data` fixture of `src/tests/conftest.py`. -/
structure Account where
  email : String
  credentialHash : String
  role : UserRole
  emailVerified : Bool
  failedLoginAttempts : Nat
  isLocked : Bool
deriving Repr, DecidableEq

/-- Modelled from the spec (section 3): `LoginAttemptOutcome` rejection
reasons. -/
inductive RejectReason
  | AccountLocked
  | InvalidCredentials
  | AccountNotFound
deriving Repr, DecidableEq

/-- Modelled from the spec (section 3): `LoginAttemptOutcome`, a transient
value: `Success(token)` or `Rejected(reason)`. -/
inductive LoginOutcome
  | Success (token : String)
  | Rejected (reason : RejectReason)
deriving Repr, DecidableEq

/-- Modelled from the spec (section 4.3, Lockout Policy): the pure
function `shouldLock(failedAttempts, threshold) -> bool`, defined as
`failedAttempts >= threshold`; the policy body is not under `src/`. -/
def shouldLock (failedAttempts threshold : Nat) : Bool :=
  threshold ≤ failedAttempts

/-- Modelled from the spec (section 4.4, transition table): one login
attempt against a found account; the Authenticator body is not under
`src/`. The hasher is abstracted as `verify` and the token issuer as
`issue`, per their contracts in sections 4.1 and 4.5. Row order follows
the table: locked short-circuits before the secret is checked; a match
resets the counter; a mismatch increments then re-evaluates the policy. -/
def loginAttemptFound (verify : String → String → Bool)
    (issue : Account → String) (threshold : Nat)
    (acct : Account) (secret : String) : Account × LoginOutcome :=
  if acct.isLocked then
    (acct, .Rejected .AccountLocked)
  else if verify secret acct.credentialHash then
    ({ acct with failedLoginAttempts := 0 }, .Success (issue acct))
  else
    let newCount := acct.failedLoginAttempts + 1
    ({ acct with failedLoginAttempts := newCount,
                 isLocked := shouldLock newCount threshold },
     .Rejected .InvalidCredentials)

/-- Modelled from the spec (section 4.2): `findByEmail` over the account
store; the repository body is not under `src/`. -/
def findByEmail (accounts : List Account) (email : String) : Option Account :=
  accounts.find? (fun a => a.email == email)

/-- Modelled from the spec (sections 4.2 and 4.4): a full login attempt,
looking the account up by email; a missing account yields
`Rejected(AccountNotFound)` and leaves the store untouched. -/
def loginAttempt (verify : String → String → Bool)
    (issue : Account → String) (threshold : Nat)
    (accounts : List Account) (email secret : String) :
    List Account × LoginOutcome :=
  match findByEmail accounts email with
  | none => (accounts, .Rejected .AccountNotFound)
  | some acct =>
    let (updated, outcome) := loginAttemptFound verify issue threshold acct secret
    (accounts.map (fun a => if a.email == email then updated else a), outcome)

/-- Embedded from `src/app/main.py`: the shape of a starlette
`JSONResponse`, a status code and a JSON object body rendered as
key/value pairs. -/
structure JsonResponse where
  status_code : Nat
  content : List (String × String)
deriving Repr, DecidableEq

/-- Modelled from the spec (section 6, HTTP-level status mapping) and the
expectations of `src/tests/test_api/test_users_api.py`: the routing layer
that maps the Authenticator outcome to an HTTP response is not under
`src/`. AccountLocked maps to 403 "Account is locked."; InvalidCredentials
and AccountNotFound both map to 401 "Incorrect username or password.";
Success maps to 200 with the access token and token type "bearer". -/
def httpOfOutcome : LoginOutcome → JsonResponse
  | .Success token =>
    ⟨200, [("access_token", token), ("token_type", "bearer")]⟩
  | .Rejected .AccountLocked =>
    ⟨403, [("detail", "Account is locked.")]⟩
  | .Rejected .InvalidCredentials =>
    ⟨401, [("detail", "Incorrect username or password.")]⟩
  | .Rejected .AccountNotFound =>
    ⟨401, [("detail", "Incorrect username or password.")]⟩

/-- Modelled from the spec (section 3, Lifecycle, and section 6,
Registration collaborator): a freshly registered account has
`failedLoginAttempts = 0` and `isLocked = false`; registration itself is
not under `src/`. -/
def freshAccount (email credentialHash : String) (role : UserRole) : Account :=
  { email := email, credentialHash := credentialHash, role := role,
    emailVerified := false, failedLoginAttempts := 0, isLocked := false }

/-- A sequence of login attempts against one account, each submitting one
secret, folded through `loginAttemptFound`. -/
def runAttempts (verify : String → String → Bool)
    (issue : Account → String) (threshold : Nat)
    (acct : Account) : List String → Account
  | [] => acct
  | secret :: rest =>
    runAttempts verify issue threshold
      (loginAttemptFound verify issue threshold acct secret).1 rest

/-- Modelled from the spec (section 7, Error Handling): the internal
failure taxonomy entries that are not login rejections; the failure paths
are not under `src/`. -/
inductive InternalFailure
  | RepositoryUnavailable
  | HashingFailure
deriving Repr, DecidableEq

/-- Modelled from the spec (sections 4.4 and 7): one login attempt in
which the repository lookup and the hasher may fail. The injected
`lookupResult` and `verifyResult` stand for the single outcome of each
effect; the returned pair of counters records how many times each effect
was invoked, so that an absence of retry is visible in the model. A
failure propagates immediately: no effect runs after it and none is
re-invoked. -/
def loginAttemptFallible
    (lookupResult : Except InternalFailure (Option Account))
    (verifyResult : Except InternalFailure Bool)
    (issue : Account → String) (threshold : Nat) :
    Except InternalFailure (Option Account × LoginOutcome) × Nat × Nat :=
  match lookupResult with
  | .error e => (.error e, 1, 0)
  | .ok none => (.ok (none, .Rejected .AccountNotFound), 1, 0)
  | .ok (some acct) =>
    if acct.isLocked then
      (.ok (some acct, .Rejected .AccountLocked), 1, 0)
    else
      match verifyResult with
      | .error e => (.error e, 1, 1)
      | .ok true =>
        (.ok (some { acct with failedLoginAttempts := 0 },
              .Success (issue acct)), 1, 1)
      | .ok false =>
        let newCount := acct.failedLoginAttempts + 1
        let acctNew : Account :=
          { acct with failedLoginAttempts := newCount,
                      isLocked := shouldLock newCount threshold }
        (.ok (some acctNew, .Rejected .InvalidCredentials), 1, 1)

/-- Embedded from `src/app/main.py` lines 28-30: the catch-all
`exception_handler` ignores the request and the exception and returns
status 500 with body message "An unexpected error occurred.". -/
def exception_handler (request : String) (exc : String) : JsonResponse :=
  ⟨500, [("message", "An unexpected error occurred.")]⟩

/-- Modelled from the spec (section 7) over the embedded handler: an
internal failure escaping the Authenticator reaches the app-level
exception handler of `src/app/main.py`; a login outcome goes through the
HTTP status mapping. -/
def httpOfLoginResult (request : String)
    (r : Except InternalFailure LoginOutcome) : JsonResponse :=
  match r with
  | .error .RepositoryUnavailable => exception_handler request "RepositoryUnavailable"
  | .error .HashingFailure => exception_handler request "HashingFailure"
  | .ok outcome => httpOfOutcome outcome

/-- Truthiness of a Python value of type `Optional[str]`, as tested by
`any(values.values())` in `src/app/schemas/user_schemas.py`: `None` and
the empty string are falsy, every other string is truthy. -/
def pyTruthy : Option String → Bool
  | none => false
  | some s => s ≠ ""

/-- Embedded from `src/app/schemas/user_schemas.py` lines 54-58:
`UserUpdate.check_at_least_one_value`, a before-mode model validator.
The incoming payload is the mapping of provided fields to their values;
if no value is truthy the validator raises
`ValueError("At least one field must be provided for update")`, otherwise
it returns the values unchanged. -/
def check_at_least_one_value (values : List (String × Option String)) :
    Except String (List (String × Option String)) :=
  if values.any (fun kv => pyTruthy kv.2) then
    .ok values
  else
    .error "At least one field must be provided for update"

/-! Helper lemmas, shared across the development. -/

/-- A login attempt against a locked account returns the account
unchanged with `Rejected AccountLocked`. -/
theorem loginAttemptFound_locked_eq (verify : String → String → Bool)
    (issue : Account → String) (threshold : Nat)
    (acct : Account) (secret : String) (h : acct.isLocked = true) :
    loginAttemptFound verify issue threshold acct secret =
      (acct, .Rejected .AccountLocked) := by
  simp [loginAttemptFound, h]

/-- A wrong secret against an open account increments the counter and
re-evaluates the policy. -/
theorem loginAttemptFound_wrong_eq (verify : String → String → Bool)
    (issue : Account → String) (threshold : Nat)
    (acct : Account) (secret : String) (hopen : acct.isLocked = false)
    (hwrong : verify secret acct.credentialHash = false) :
    loginAttemptFound verify issue threshold acct secret =
      ({ acct with failedLoginAttempts := acct.failedLoginAttempts + 1,
                   isLocked := shouldLock (acct.failedLoginAttempts + 1) threshold },
       .Rejected .InvalidCredentials) := by
  simp [loginAttemptFound, hopen, hwrong]

/-- The lock-implies-counter-at-threshold invariant of the spec. -/
def LockInv (threshold : Nat) (a : Account) : Prop :=
  a.isLocked = true → threshold ≤ a.failedLoginAttempts

/-- One login attempt preserves `LockInv`. -/
theorem loginAttemptFound_preserves_LockInv
    (verify : String → String → Bool) (issue : Account → String)
    (threshold : Nat) (acct : Account) (secret : String)
    (h : LockInv threshold acct) :
    LockInv threshold (loginAttemptFound verify issue threshold acct secret).1 := by
  unfold loginAttemptFound
  by_cases hl : acct.isLocked = true
  · simpa [hl] using h
  · simp only [Bool.not_eq_true] at hl
    by_cases hv : verify secret acct.credentialHash = true
    · simp [hl, hv, LockInv]
    · simp only [Bool.not_eq_true] at hv
      simp only [hl, hv, Bool.false_eq_true, if_false]
      intro hlock
      simp only [shouldLock, decide_eq_true_eq] at hlock ⊢
      exact hlock

/-- Any attempt sequence from a `LockInv` state ends in a `LockInv`
state. -/
theorem runAttempts_preserves_LockInv
    (verify : String → String → Bool) (issue : Account → String)
    (threshold : Nat) (acct : Account) (attempts : List String)
    (h : LockInv threshold acct) :
    LockInv threshold (runAttempts verify issue threshold acct attempts) := by
  induction attempts generalizing acct with
  | nil => exact h
  | cons s rest ih =>
    exact ih _ (loginAttemptFound_preserves_LockInv verify issue threshold acct s h)

/-! Claim theorems. -/

/-- Claim C1: for every account in the Open state with
`failedLoginAttempts = threshold - 1`, a login attempt with a wrong secret
sets `isLocked` to true and returns `Rejected InvalidCredentials` for that
same call, not `AccountLocked`; every following attempt on the resulting
account observes `AccountLocked`. -/
theorem C1_threshold_crossing_attempt
    (verify : String → String → Bool) (issue : Account → String)
    (threshold : Nat) (acct : Account) (secret : String)
    (hopen : acct.isLocked = false) (hpos : 0 < threshold)
    (hcount : acct.failedLoginAttempts = threshold - 1)
    (hwrong : verify secret acct.credentialHash = false) :
    (loginAttemptFound verify issue threshold acct secret).1.isLocked = true ∧
    (loginAttemptFound verify issue threshold acct secret).2 =
      .Rejected .InvalidCredentials ∧
    ∀ secret2 : String,
      (loginAttemptFound verify issue threshold
        (loginAttemptFound verify issue threshold acct secret).1 secret2).2 =
        .Rejected .AccountLocked := by
  have hnew : acct.failedLoginAttempts + 1 = threshold := by omega
  have hlock : shouldLock (acct.failedLoginAttempts + 1) threshold = true := by
    simp [shouldLock, hnew]
  rw [loginAttemptFound_wrong_eq verify issue threshold acct secret hopen hwrong]
  refine ⟨hlock, rfl, fun secret2 => ?_⟩
  rw [loginAttemptFound_locked_eq verify issue threshold _ secret2 hlock]

/-- Closed witness for C1 at threshold 3 and a concrete account with two
prior failures. -/
theorem C1_threshold_crossing_attempt_witness :
    (⟨"a@b.c", "h", .AUTHENTICATED, false, 2, false⟩ : Account).isLocked = false ∧
    (loginAttemptFound (fun s h => s == h) (fun _ => "tok") 3
      ⟨"a@b.c", "h", .AUTHENTICATED, false, 2, false⟩ "wrong").1.isLocked = true :=
  ⟨by decide,
   (C1_threshold_crossing_attempt (fun s h => s == h) (fun _ => "tok") 3
      ⟨"a@b.c", "h", .AUTHENTICATED, false, 2, false⟩ "wrong"
      (by decide) (by decide) (by decide) (by decide)).1⟩

/-- Claim C2: for every locked account, every login attempt returns
`Rejected AccountLocked` and leaves the account record unchanged,
whatever the submitted secret and whatever `verify` would say; and in the
effect-counting model the hasher is invoked zero times. -/
theorem C2_locked_rejects_all
    (verify : String → String → Bool) (issue : Account → String)
    (threshold : Nat) (acct : Account) (secret : String)
    (verifyResult : Except InternalFailure Bool)
    (hlocked : acct.isLocked = true) :
    loginAttemptFound verify issue threshold acct secret =
      (acct, .Rejected .AccountLocked) ∧
    loginAttemptFallible (.ok (some acct)) verifyResult issue threshold =
      (.ok (some acct, .Rejected .AccountLocked), 1, 0) := by
  refine ⟨loginAttemptFound_locked_eq verify issue threshold acct secret hlocked, ?_⟩
  simp [loginAttemptFallible, hlocked]

/-- Closed witness for C2 at a concrete locked account, with the correct
secret submitted. -/
theorem C2_locked_rejects_all_witness :
    (⟨"a@b.c", "pw", .AUTHENTICATED, false, 3, true⟩ : Account).isLocked = true ∧
    loginAttemptFound (fun s h => s == h) (fun _ => "tok") 3
      ⟨"a@b.c", "pw", .AUTHENTICATED, false, 3, true⟩ "pw" =
      (⟨"a@b.c", "pw", .AUTHENTICATED, false, 3, true⟩, .Rejected .AccountLocked) :=
  ⟨by decide,
   (C2_locked_rejects_all (fun s h => s == h) (fun _ => "tok") 3
      ⟨"a@b.c", "pw", .AUTHENTICATED, false, 3, true⟩ "pw" (.ok true)
      (by decide)).1⟩

/-- Claim C5: for every open account with
`failedLoginAttempts < threshold - 1`, a wrong-secret attempt increments
the counter by exactly one, leaves the account open, and returns
`Rejected InvalidCredentials`. -/
theorem C5_wrong_secret_below_threshold
    (verify : String → String → Bool) (issue : Account → String)
    (threshold : Nat) (acct : Account) (secret : String)
    (hopen : acct.isLocked = false)
    (hlt : acct.failedLoginAttempts < threshold - 1)
    (hwrong : verify secret acct.credentialHash = false) :
    (loginAttemptFound verify issue threshold acct secret).1.failedLoginAttempts =
      acct.failedLoginAttempts + 1 ∧
    (loginAttemptFound verify issue threshold acct secret).1.isLocked = false ∧
    (loginAttemptFound verify issue threshold acct secret).2 =
      .Rejected .InvalidCredentials := by
  rw [loginAttemptFound_wrong_eq verify issue threshold acct secret hopen hwrong]
  refine ⟨rfl, ?_, rfl⟩
  simp only [shouldLock, decide_eq_false_iff_not]
  omega

/-- Closed witness for C5 at threshold 5 and a concrete account with one
prior failure. -/
theorem C5_wrong_secret_below_threshold_witness :
    (loginAttemptFound (fun s h => s == h) (fun _ => "tok") 5
      ⟨"a@b.c", "pw", .AUTHENTICATED, false, 1, false⟩ "nope").1.failedLoginAttempts = 2 :=
  (C5_wrong_secret_below_threshold (fun s h => s == h) (fun _ => "tok") 5
      ⟨"a@b.c", "pw", .AUTHENTICATED, false, 1, false⟩ "nope"
      (by decide) (by decide) (by decide)).1

/-- Claim C6: for every open account, whatever the current counter, a
correct-secret attempt resets the counter to 0, leaves the account open,
and returns `Success` with a token; at the HTTP level this is a 200
response carrying the access token and token type bearer. -/
theorem C6_correct_secret_resets
    (verify : String → String → Bool) (issue : Account → String)
    (threshold : Nat) (acct : Account) (secret : String)
    (hopen : acct.isLocked = false)
    (hmatch : verify secret acct.credentialHash = true) :
    (loginAttemptFound verify issue threshold acct secret).1.failedLoginAttempts = 0 ∧
    (loginAttemptFound verify issue threshold acct secret).1.isLocked = false ∧
    (loginAttemptFound verify issue threshold acct secret).2 =
      .Success (issue acct) ∧
    httpOfOutcome (loginAttemptFound verify issue threshold acct secret).2 =
      ⟨200, [("access_token", issue acct), ("token_type", "bearer")]⟩ := by
  simp [loginAttemptFound, hopen, hmatch, httpOfOutcome]

/-- Closed witness for C6 at a concrete open account with a non-zero
counter. -/
theorem C6_correct_secret_resets_witness :
    (loginAttemptFound (fun s h => s == h) (fun _ => "tok") 5
      ⟨"a@b.c", "pw", .AUTHENTICATED, false, 3, false⟩ "pw").1.failedLoginAttempts = 0 :=
  (C6_correct_secret_resets (fun s h => s == h) (fun _ => "tok") 5
      ⟨"a@b.c", "pw", .AUTHENTICATED, false, 3, false⟩ "pw"
      (by decide) (by decide)).1

/-- Claim C7: the lockout policy is the pure function
`shouldLock failedAttempts threshold = true` exactly when
`failedAttempts >= threshold`, for every non-negative count and every
positive threshold. -/
theorem C7_shouldLock_iff (failedAttempts threshold : Nat)
    (hpos : 0 < threshold) :
    shouldLock failedAttempts threshold = true ↔ threshold ≤ failedAttempts := by
  simp [shouldLock]

/-- Closed witness for C7 at counts 5 and 2 against threshold 3. -/
theorem C7_shouldLock_iff_witness :
    0 < 3 ∧ (shouldLock 5 3 = true ↔ 3 ≤ 5) :=
  ⟨by decide, C7_shouldLock_iff 5 3 (by decide)⟩

/-- Claim C3: a login attempt against a non-existent identifier and a
wrong-secret attempt against an existing open account produce the same
external response, status 401 with detail
"Incorrect username or password."; the internal
`AccountNotFound` versus `InvalidCredentials` distinction is not
observable to the caller. -/
theorem C3_notfound_indistinguishable_from_wrong_secret
    (verify : String → String → Bool) (issue : Account → String)
    (threshold : Nat) (accounts : List Account)
    (emailA emailB secretA secretB : String) (acct : Account)
    (hA : findByEmail accounts emailA = none)
    (hB : findByEmail accounts emailB = some acct)
    (hopen : acct.isLocked = false)
    (hwrong : verify secretB acct.credentialHash = false) :
    httpOfOutcome (loginAttempt verify issue threshold accounts emailA secretA).2 =
      httpOfOutcome (loginAttempt verify issue threshold accounts emailB secretB).2 ∧
    httpOfOutcome (loginAttempt verify issue threshold accounts emailA secretA).2 =
      ⟨401, [("detail", "Incorrect username or password.")]⟩ := by
  have h1 : (loginAttempt verify issue threshold accounts emailA secretA).2 =
      .Rejected .AccountNotFound := by
    simp [loginAttempt, hA]
  have h2 : (loginAttempt verify issue threshold accounts emailB secretB).2 =
      .Rejected .InvalidCredentials := by
    simp [loginAttempt, hB,
      loginAttemptFound_wrong_eq verify issue threshold acct secretB hopen hwrong]
  rw [h1, h2]
  exact ⟨rfl, rfl⟩

/-- Closed witness for C3 over a one-account store: a lookup miss and a
wrong secret give the same 401 response. -/
theorem C3_notfound_indistinguishable_from_wrong_secret_witness :
    httpOfOutcome (loginAttempt (fun s h => s == h) (fun _ => "tok") 3
        [⟨"a@b.c", "pw", .AUTHENTICATED, false, 0, false⟩] "ghost@b.c" "x").2 =
      httpOfOutcome (loginAttempt (fun s h => s == h) (fun _ => "tok") 3
        [⟨"a@b.c", "pw", .AUTHENTICATED, false, 0, false⟩] "a@b.c" "wrong").2 :=
  (C3_notfound_indistinguishable_from_wrong_secret (fun s h => s == h)
      (fun _ => "tok") 3 [⟨"a@b.c", "pw", .AUTHENTICATED, false, 0, false⟩]
      "ghost@b.c" "a@b.c" "x" "wrong"
      ⟨"a@b.c", "pw", .AUTHENTICATED, false, 0, false⟩
      (by decide) (by decide) (by decide) (by decide)).1

/-- Claim C4: every account state reachable from a freshly registered
account by a sequence of login attempts satisfies the invariant
`isLocked = true` implies `failedLoginAttempts >= maxLoginAttempts`, and
every single Authenticator attempt preserves that invariant. -/
theorem C4_lock_invariant
    (verify : String → String → Bool) (issue : Account → String)
    (threshold : Nat) (email credentialHash : String) (role : UserRole)
    (attempts : List String) :
    LockInv threshold
      (runAttempts verify issue threshold
        (freshAccount email credentialHash role) attempts) ∧
    ∀ (acct : Account) (secret : String), LockInv threshold acct →
      LockInv threshold (loginAttemptFound verify issue threshold acct secret).1 := by
  constructor
  · apply runAttempts_preserves_LockInv
    intro h
    simp [freshAccount] at h
  · intro acct secret h
    exact loginAttemptFound_preserves_LockInv verify issue threshold acct secret h

/-- Closed witness for C4: four wrong attempts against a fresh account at
threshold 3 reach a locked state whose counter meets the threshold. -/
theorem C4_lock_invariant_witness :
    LockInv 3 (runAttempts (fun s h => s == h) (fun _ => "tok") 3
      (freshAccount "a@b.c" "pw" .AUTHENTICATED) ["w1", "w2", "w3", "w4"]) ∧
    LockInv 3 (loginAttemptFound (fun s h => s == h) (fun _ => "tok") 3
      ⟨"a@b.c", "pw", .AUTHENTICATED, false, 2, false⟩ "w").1 :=
  ⟨(C4_lock_invariant (fun s h => s == h) (fun _ => "tok") 3
      "a@b.c" "pw" .AUTHENTICATED ["w1", "w2", "w3", "w4"]).1,
   (C4_lock_invariant (fun s h => s == h) (fun _ => "tok") 3
      "a@b.c" "pw" .AUTHENTICATED []).2
      ⟨"a@b.c", "pw", .AUTHENTICATED, false, 2, false⟩ "w"
      (by intro h; simp at h)⟩

/-- Claim C9: an internal failure of the repository lookup or of the
hasher is not retried, each effect running at most once, and propagates
unchanged out of the Authenticator; the app-level handler of
`src/app/main.py` maps every unhandled exception to status 500 with body
message "An unexpected error occurred.", revealing nothing of the failure. -/
theorem C9_internal_failure_generic_500
    (verifyResult : Except InternalFailure Bool) (issue : Account → String)
    (threshold : Nat) (e : InternalFailure) (acct : Account)
    (request exc : String) (hopen : acct.isLocked = false) :
    loginAttemptFallible (.error e) verifyResult issue threshold =
      (.error e, 1, 0) ∧
    loginAttemptFallible (.ok (some acct)) (.error e) issue threshold =
      (.error e, 1, 1) ∧
    httpOfLoginResult request (.error e) =
      ⟨500, [("message", "An unexpected error occurred.")]⟩ ∧
    exception_handler request exc =
      ⟨500, [("message", "An unexpected error occurred.")]⟩ := by
  refine ⟨rfl, ?_, ?_, rfl⟩
  · simp [loginAttemptFallible, hopen]
  · cases e <;> rfl

/-- Closed witness for C9 at a concrete open account and a repository
failure. -/
theorem C9_internal_failure_generic_500_witness :
    loginAttemptFallible (.error .RepositoryUnavailable) (.ok true)
      (fun _ => "tok") 3 = (.error .RepositoryUnavailable, 1, 0) :=
  (C9_internal_failure_generic_500 (.ok true) (fun _ => "tok") 3
      .RepositoryUnavailable ⟨"a@b.c", "pw", .AUTHENTICATED, false, 0, false⟩
      "req" "exc" (by decide)).1

/-- Claim C10: a `UserUpdate` payload whose provided values are all falsy
is rejected with "At least one field must be provided for update", and a
payload with at least one truthy value is accepted unchanged. -/
theorem C10_check_at_least_one_value_spec
    (values : List (String × Option String)) :
    ((∀ kv ∈ values, pyTruthy kv.2 = false) →
      check_at_least_one_value values =
        .error "At least one field must be provided for update") ∧
    ((∃ kv ∈ values, pyTruthy kv.2 = true) →
      check_at_least_one_value values = .ok values) := by
  constructor
  · intro hall
    have : values.any (fun kv => pyTruthy kv.2) = false := by
      simp only [List.any_eq_false]
      exact fun kv hkv => by simp [hall kv hkv]
    simp [check_at_least_one_value, this]
  · intro ⟨kv, hkv, htruthy⟩
    have : values.any (fun kv => pyTruthy kv.2) = true :=
      List.any_eq_true.mpr ⟨kv, hkv, htruthy⟩
    simp [check_at_least_one_value, this]

/-- Closed witness for C10: an all-falsy payload is rejected and a payload
with one truthy field is accepted. -/
theorem C10_check_at_least_one_value_spec_witness :
    check_at_least_one_value [("bio", none), ("first_name", some "")] =
      .error "At least one field must be provided for update" ∧
    check_at_least_one_value [("bio", none), ("first_name", some "Ada")] =
      .ok [("bio", none), ("first_name", some "Ada")] :=
  ⟨(C10_check_at_least_one_value_spec
      [("bio", none), ("first_name", some "")]).1 (by decide),
   (C10_check_at_least_one_value_spec
      [("bio", none), ("first_name", some "Ada")]).2
      ⟨("first_name", some "Ada"), by decide, by decide⟩⟩

end EventManager
